import Mathlib

/-!
Verification of the axis-aligned bounding box type declared in
include/ignition/math/Box.hh of the gz-math library.  The header in the
sources declares the interface only; the member-function bodies live in a
separate implementation file (Box.cc) that is not among the sources, so
every operation below is modelled from the specification document, faithful
to its words.  The C++ double components are modelled as exact rationals.
-/

namespace GzMath

/-- Three-dimensional vector of rational components, modelling the
library's Vector3d collaborator (component-wise arithmetic, comparison,
and minimum/maximum). -/
structure Vector3 where
  x : ℚ
  y : ℚ
  z : ℚ
  deriving DecidableEq, Repr

/-- Component-wise minimum of two vectors. -/
def Vector3.cmin (a b : Vector3) : Vector3 :=
  ⟨min a.x b.x, min a.y b.y, min a.z b.z⟩

/-- Component-wise maximum of two vectors. -/
def Vector3.cmax (a b : Vector3) : Vector3 :=
  ⟨max a.x b.x, max a.y b.y, max a.z b.z⟩

/-- Component-wise vector addition. -/
def Vector3.add (a b : Vector3) : Vector3 :=
  ⟨a.x + b.x, a.y + b.y, a.z + b.z⟩

instance : Add Vector3 := ⟨Vector3.add⟩

/-- Component-wise vector subtraction. -/
def Vector3.sub (a b : Vector3) : Vector3 :=
  ⟨a.x - b.x, a.y - b.y, a.z - b.z⟩

instance : Sub Vector3 := ⟨Vector3.sub⟩

/-- Division of a vector by a scalar, component-wise. -/
def Vector3.divScalar (a : Vector3) (q : ℚ) : Vector3 :=
  ⟨a.x / q, a.y / q, a.z / q⟩

/-- Component-wise order on vectors. -/
def Vector3.le (a b : Vector3) : Prop :=
  a.x ≤ b.x ∧ a.y ≤ b.y ∧ a.z ≤ b.z

instance (a b : Vector3) : Decidable (Vector3.le a b) :=
  inferInstanceAs (Decidable (a.x ≤ b.x ∧ a.y ≤ b.y ∧ a.z ≤ b.z))

/-- Axis-aligned box given by its two corners, as declared in Box.hh
(the private-implementation indirection collapses to the two corner
fields, with no externally observable difference). -/
structure Box where
  min : Vector3
  max : Vector3
  deriving DecidableEq, Repr

/-- Modelled from the spec: the default constructor (its body, in Box.cc,
is absent from the sources) produces a box with both corners at the
origin. -/
def Box.mkDefault : Box := ⟨⟨0, 0, 0⟩, ⟨0, 0, 0⟩⟩

/-- Modelled from the spec: the two-corner constructor (its body, in
Box.cc, is absent from the sources) sets the minimum corner to the
component-wise minimum and the maximum corner to the component-wise
maximum of the two argument corners. -/
def Box.ofCorners (v1 v2 : Vector3) : Box :=
  ⟨Vector3.cmin v1 v2, Vector3.cmax v1 v2⟩

/-- Modelled from the spec: the six-scalar constructor (its body, in
Box.cc, is absent from the sources) forwards to the two-corner
constructor. -/
def Box.ofScalars (x1 y1 z1 x2 y2 z2 : ℚ) : Box :=
  Box.ofCorners ⟨x1, y1, z1⟩ ⟨x2, y2, z2⟩

/-- Modelled from the spec: XLength (body in the absent Box.cc) returns
the difference of the x components of the two corners. -/
def Box.XLength (b : Box) : ℚ := b.max.x - b.min.x

/-- Modelled from the spec: YLength (body in the absent Box.cc) returns
the difference of the y components of the two corners. -/
def Box.YLength (b : Box) : ℚ := b.max.y - b.min.y

/-- Modelled from the spec: ZLength (body in the absent Box.cc) returns
the difference of the z components of the two corners. -/
def Box.ZLength (b : Box) : ℚ := b.max.z - b.min.z

/-- Modelled from the spec: Size (body in the absent Box.cc) returns the
vector of the three axis lengths. -/
def Box.Size (b : Box) : Vector3 := ⟨b.XLength, b.YLength, b.ZLength⟩

/-- Modelled from the spec: Center (body in the absent Box.cc) returns
the minimum corner plus half the size, the midpoint of the corners. -/
def Box.Center (b : Box) : Vector3 := b.min + (b.Size).divScalar 2

/-- Modelled from the spec: Merge (body in the absent Box.cc) updates the
receiver so that its corners become the component-wise minimum/maximum
across the receiver and the argument; the in-place mutation is modelled
as a function returning the receiver's new value. -/
def Box.Merge (a b : Box) : Box :=
  ⟨Vector3.cmin a.min b.min, Vector3.cmax a.max b.max⟩

/-- Modelled from the spec: the addition operator (body in the absent
Box.cc) returns a copy of the receiver with Merge applied, a
non-mutating union. -/
def Box.add (a b : Box) : Box := Box.Merge a b

instance : Add Box := ⟨Box.add⟩

/-- Modelled from the spec: the compound addition operator (body in the
absent Box.cc) merges the argument into the receiver; modelled as the
receiver's new value. -/
def Box.addAssign (a b : Box) : Box := Box.Merge a b

/-- Modelled from the spec: the subtraction operator (body in the absent
Box.cc) takes a vector and returns a new box with both corners
translated by the negated vector, leaving the receiver unchanged; the
member call is modelled by state passing, as the pair of the receiver's
value after the call and the returned box. -/
def Box.subOp (b : Box) (v : Vector3) : Box × Box :=
  (b, ⟨b.min - v, b.max - v⟩)

/-- The box returned by the subtraction operator. -/
def Box.subV (b : Box) (v : Vector3) : Box := (Box.subOp b v).2

instance : HSub Box Vector3 Box := ⟨Box.subV⟩

/-- Modelled from the spec: the equality operator (body in the absent
Box.cc) compares the two corner vectors component-wise. -/
def Box.eqOp (a b : Box) : Bool := a.min == b.min && a.max == b.max

/-- Modelled from the spec: Intersects (body in the absent Box.cc) tests
interval overlap on each of the three axes, where two closed intervals
overlap iff each lower end is at most the other's upper end; the boxes
intersect iff all three axes overlap. -/
def Box.Intersects (a b : Box) : Bool :=
  (decide (a.min.x ≤ b.max.x) && decide (b.min.x ≤ a.max.x)) &&
  (decide (a.min.y ≤ b.max.y) && decide (b.min.y ≤ a.max.y)) &&
  (decide (a.min.z ≤ b.max.z) && decide (b.min.z ≤ a.max.z))

/-- The documented min-max invariant of a valid box. -/
def Box.valid (b : Box) : Prop :=
  b.min.x ≤ b.max.x ∧ b.min.y ≤ b.max.y ∧ b.min.z ≤ b.max.z

instance (b : Box) : Decidable (Box.valid b) :=
  inferInstanceAs
    (Decidable (b.min.x ≤ b.max.x ∧ b.min.y ≤ b.max.y ∧ b.min.z ≤ b.max.z))

/-- The addition operator unfolds to Merge on a copy of the receiver. -/
theorem Box.add_eq_merge (a b : Box) : a + b = a.Merge b := rfl

/-- The subtraction operator returns the second component of the
state-passing model. -/
theorem Box.sub_eq_subOp (b : Box) (v : Vector3) : b - v = (Box.subOp b v).2 := rfl

/-- Vector addition unfolds component-wise. -/
theorem Vector3.add_comps (a b : Vector3) :
    a + b = ⟨a.x + b.x, a.y + b.y, a.z + b.z⟩ := rfl

/-- Vector subtraction unfolds component-wise. -/
theorem Vector3.sub_comps (a b : Vector3) :
    a - b = ⟨a.x - b.x, a.y - b.y, a.z - b.z⟩ := rfl

/-- Component-wise minimum is commutative. -/
theorem Vector3.cmin_comm (a b : Vector3) :
    Vector3.cmin a b = Vector3.cmin b a := by
  simp [Vector3.cmin, min_comm]

/-- Component-wise maximum is commutative. -/
theorem Vector3.cmax_comm (a b : Vector3) :
    Vector3.cmax a b = Vector3.cmax b a := by
  simp [Vector3.cmax, max_comm]

/-- Claim C1: for two boxes satisfying the min-max invariant, Intersects
returns true iff on each of the three axes neither box's maximum
coordinate is strictly less than the other box's minimum coordinate. -/
theorem C1_intersects_iff_axis_overlap (a b : Box)
    (ha : a.valid) (hb : b.valid) :
    a.Intersects b = true ↔
      ((¬ (a.max.x < b.min.x) ∧ ¬ (b.max.x < a.min.x)) ∧
       (¬ (a.max.y < b.min.y) ∧ ¬ (b.max.y < a.min.y)) ∧
       (¬ (a.max.z < b.min.z) ∧ ¬ (b.max.z < a.min.z))) := by
  simp only [Box.Intersects, Bool.and_eq_true, decide_eq_true_eq, not_lt]
  tauto

/-- Claim C1 witness: the touching-corner scenario boxes satisfy the
invariant, and the unit box at the origin intersects the unit box whose
corner merely touches it. -/
theorem C1_intersects_iff_axis_overlap_witness :
    (Box.ofScalars 0 0 0 1 1 1).Intersects (Box.ofScalars 1 1 1 2 2 2) = true :=
  (C1_intersects_iff_axis_overlap (Box.ofScalars 0 0 0 1 1 1)
    (Box.ofScalars 1 1 1 2 2 2) (by decide) (by decide)).mpr (by decide)

/-- Claim C2: Merge takes the component-wise minimum/maximum of the
corners, and consequently the union produced by the addition operator
contains both operands. -/
theorem C2_merge_corners_and_containment (a b : Box) :
    (a.Merge b).min = Vector3.cmin a.min b.min ∧
    (a.Merge b).max = Vector3.cmax a.max b.max ∧
    Vector3.le (a + b).min a.min ∧ Vector3.le (a + b).min b.min ∧
    Vector3.le a.max (a + b).max ∧ Vector3.le b.max (a + b).max := by
  refine ⟨rfl, rfl, ?_, ?_, ?_, ?_⟩
  · exact ⟨min_le_left _ _, min_le_left _ _, min_le_left _ _⟩
  · exact ⟨min_le_right _ _, min_le_right _ _, min_le_right _ _⟩
  · exact ⟨le_max_left _ _, le_max_left _ _, le_max_left _ _⟩
  · exact ⟨le_max_right _ _, le_max_right _ _, le_max_right _ _⟩

/-- Claim C3: the two-corner constructor normalizes the corners
component-wise, so the argument order is irrelevant: the two orders
produce structurally equal boxes and the equality operator accepts
them. -/
theorem C3_ofCorners_order_irrelevant (v1 v2 : Vector3) :
    Box.ofCorners v1 v2 = ⟨Vector3.cmin v1 v2, Vector3.cmax v1 v2⟩ ∧
    Box.ofCorners v1 v2 = Box.ofCorners v2 v1 ∧
    Box.eqOp (Box.ofCorners v1 v2) (Box.ofCorners v2 v1) = true := by
  refine ⟨rfl, ?_, ?_⟩
  · simp [Box.ofCorners, Vector3.cmin_comm v1 v2, Vector3.cmax_comm v1 v2]
  · simp [Box.eqOp, Box.ofCorners, Vector3.cmin_comm v1 v2, Vector3.cmax_comm v1 v2]

/-- Claim C4: every constructor establishes the min-max invariant, for
all constructor arguments; the default constructor yields both corners
at the origin. -/
theorem C4_constructors_establish_invariant :
    Box.mkDefault.valid ∧
    Box.mkDefault.min = ⟨0, 0, 0⟩ ∧ Box.mkDefault.max = ⟨0, 0, 0⟩ ∧
    (∀ v1 v2 : Vector3, (Box.ofCorners v1 v2).valid) ∧
    (∀ x1 y1 z1 x2 y2 z2 : ℚ, (Box.ofScalars x1 y1 z1 x2 y2 z2).valid) := by
  refine ⟨by decide, rfl, rfl, ?_, ?_⟩
  · intro v1 v2
    exact ⟨min_le_max, min_le_max, min_le_max⟩
  · intro x1 y1 z1 x2 y2 z2
    exact ⟨min_le_max, min_le_max, min_le_max⟩

/-- Claim C5: for boxes satisfying the min-max invariant the addition
operator is commutative. -/
theorem C5_add_comm (a b : Box) (ha : a.valid) (hb : b.valid) :
    a + b = b + a := by
  show Box.Merge a b = Box.Merge b a
  unfold Box.Merge
  rw [Vector3.cmin_comm, Vector3.cmax_comm]

/-- Claim C5 witness: commutativity instantiated at two concrete valid
boxes. -/
theorem C5_add_comm_witness :
    Box.ofScalars 0 0 0 1 1 1 + Box.ofScalars 2 0 0 3 1 1 =
      Box.ofScalars 2 0 0 3 1 1 + Box.ofScalars 0 0 0 1 1 1 :=
  C5_add_comm (Box.ofScalars 0 0 0 1 1 1) (Box.ofScalars 2 0 0 3 1 1)
    (by decide) (by decide)

/-- Claim C6: intersection testing is symmetric for boxes satisfying the
min-max invariant. -/
theorem C6_intersects_symm (a b : Box) (ha : a.valid) (hb : b.valid) :
    a.Intersects b = b.Intersects a := by
  have hbool : ∀ x y : Bool, (x = true ↔ y = true) → x = y := by decide
  apply hbool
  simp only [Box.Intersects, Bool.and_eq_true, decide_eq_true_eq]
  tauto

/-- Claim C6 witness: symmetry instantiated at two concrete valid
disjoint boxes. -/
theorem C6_intersects_symm_witness :
    (Box.ofScalars 0 0 0 1 1 1).Intersects (Box.ofScalars 2 2 2 3 3 3) =
      (Box.ofScalars 2 2 2 3 3 3).Intersects (Box.ofScalars 0 0 0 1 1 1) :=
  C6_intersects_symm (Box.ofScalars 0 0 0 1 1 1) (Box.ofScalars 2 2 2 3 3 3)
    (by decide) (by decide)

/-- Claim C7: Center equals the minimum corner plus half the Size, and
the unit box at the origin has Size (1,1,1) and Center (1/2,1/2,1/2). -/
theorem C7_center_is_midpoint (b : Box) :
    b.Center = b.min + (b.Size).divScalar 2 ∧
    (Box.ofScalars 0 0 0 1 1 1).Size = ⟨1, 1, 1⟩ ∧
    (Box.ofScalars 0 0 0 1 1 1).Center = ⟨1/2, 1/2, 1/2⟩ := by
  refine ⟨rfl, ?_, ?_⟩
  · simp only [Box.ofScalars, Box.ofCorners, Box.Size, Box.XLength,
      Box.YLength, Box.ZLength, Vector3.cmin, Vector3.cmax, Vector3.mk.injEq]
    norm_num
  · simp only [Box.ofScalars, Box.ofCorners, Box.Center, Box.Size,
      Box.XLength, Box.YLength, Box.ZLength, Vector3.cmin, Vector3.cmax,
      Vector3.divScalar, Vector3.add_comps, Vector3.mk.injEq]
    norm_num

/-- Claim C8: the subtraction operator translates both corners by the
negated vector, and translating the unit box by (1,0,0) gives the box
with corners (-1,0,0) and (0,1,1). -/
theorem C8_sub_translates_corners (b : Box) (v : Vector3) :
    b - v = Box.mk (b.min - v) (b.max - v) ∧
    Box.ofScalars 0 0 0 1 1 1 - (⟨1, 0, 0⟩ : Vector3) =
      Box.ofScalars (-1) 0 0 0 1 1 := by
  refine ⟨rfl, ?_⟩
  simp only [Box.sub_eq_subOp, Box.subOp, Box.ofScalars, Box.ofCorners,
    Vector3.cmin, Vector3.cmax, Vector3.sub_comps, Box.mk.injEq, Vector3.mk.injEq]
  norm_num

/-- Claim C9: merging two boxes that satisfy the min-max invariant yields
a box satisfying it again, for Merge, the addition operator and the
compound addition operator alike. -/
theorem C9_merge_preserves_invariant (a b : Box)
    (ha : a.valid) (hb : b.valid) :
    (a.Merge b).valid ∧ (a + b).valid ∧ (a.addAssign b).valid := by
  obtain ⟨hax, hay, haz⟩ := ha
  have key : (a.Merge b).valid :=
    ⟨le_trans (min_le_left _ _) (le_trans hax (le_max_left _ _)),
     le_trans (min_le_left _ _) (le_trans hay (le_max_left _ _)),
     le_trans (min_le_left _ _) (le_trans haz (le_max_left _ _))⟩
  exact ⟨key, key, key⟩

/-- Claim C9 witness: closure under merge instantiated at two concrete
valid boxes. -/
theorem C9_merge_preserves_invariant_witness :
    ((Box.ofScalars 0 0 0 1 1 1).Merge (Box.ofScalars 2 2 2 3 3 3)).valid ∧
    (Box.ofScalars 0 0 0 1 1 1 + Box.ofScalars 2 2 2 3 3 3).valid ∧
    ((Box.ofScalars 0 0 0 1 1 1).addAssign (Box.ofScalars 2 2 2 3 3 3)).valid :=
  C9_merge_preserves_invariant (Box.ofScalars 0 0 0 1 1 1)
    (Box.ofScalars 2 2 2 3 3 3) (by decide) (by decide)

/-- Claim C10: the subtraction operator leaves the receiver unchanged:
in the state-passing model the receiver's value after the call is the
value before it, both corners included. -/
theorem C10_sub_leaves_receiver_unchanged (b : Box) (v : Vector3) :
    (Box.subOp b v).1 = b ∧
    (Box.subOp b v).1.min = b.min ∧ (Box.subOp b v).1.max = b.max :=
  ⟨rfl, rfl, rfl⟩

end GzMath
